import Mathlib

/-!
Shallow embedding of `poetry_scripts.py`: a command dispatcher that maps a
command name to one external-process invocation, optionally adjusting the
child environment or argument vector.
-/

/-- One external-process invocation: the argument vector handed to
`subprocess.run`, and the explicit child environment if one is passed
(`none` means the child inherits the parent environment). -/
structure RunCall where
  cmd : List String
  env : Option (List (String × String))
deriving Repr, DecidableEq

/-- Python dict lookup on an insertion-ordered association list. -/
def dictGet : List (String × String) → String → Option String
  | [], _ => none
  | (k, v) :: rest, key => if k = key then some v else dictGet rest key

/-- Python dict assignment `d[key] = val`: replace the value in place when
the key is present, append a new entry otherwise. -/
def dictSet : List (String × String) → String → String → List (String × String)
  | [], key, val => [(key, val)]
  | (k, v) :: rest, key, val =>
    if k = key then (k, val) :: rest else (k, v) :: dictSet rest key val

/-- `serve()`: run `mkdocs serve` with no environment change. -/
def serve : RunCall :=
  { cmd := ["mkdocs", "serve"], env := none }

/-- `build()`: run `mkdocs build` with no environment change. -/
def build : RunCall :=
  { cmd := ["mkdocs", "build"], env := none }

/-- `build_pdf()`: copy `os.environ`, set `ENABLE_PDF_EXPORT` to `"1"` in the
copy, and run `mkdocs build` with that copy as the child environment.
State-passing embedding: takes `os.environ` and returns the issued call
together with `os.environ` as it stands after the function returns
(the source never assigns to `os.environ` itself). -/
def build_pdf (environ : List (String × String)) :
    RunCall × List (String × String) :=
  let env := environ
  let env := dictSet env "ENABLE_PDF_EXPORT" "1"
  ({ cmd := ["mkdocs", "build"], env := some env }, environ)

/-- Result of `deploy_version()`: the resolved version and message, the
constructed command vector, and the lines printed to stdout. -/
structure DeployResult where
  version : String
  message : String
  cmd : List String
  output : List String
deriving Repr, DecidableEq

/-- `deploy_version()`: `argv_rest` is `sys.argv[1:]`.
`version = args[0] if len(args) > 0 else "latest"`;
`message = args[1] if len(args) > 1 else f"Deploy version {version}"`
(embedded as `List.getD`, which returns the element when the index is in
range and the default otherwise). The `if message:` truthiness test on a
Python string is `message ≠ ""`. -/
def deploy_version (argv_rest : List String) : DeployResult :=
  let args := argv_rest
  let version := args.getD 0 "latest"
  let message := args.getD 1 ("Deploy version " ++ version)
  let cmd := ["mike", "deploy", "--push", "--update-aliases", version, "latest"]
  let cmd := if message ≠ "" then cmd ++ ["-m", message] else cmd
  { version := version
    message := message
    cmd := cmd
    output := ["Deploying documentation version: " ++ version,
               "Commit message: " ++ message] }

/-- Variant of `deploy_version` with the `if message:` guard removed, so the
`-m` flag and the message are always appended. The spec's design note claims
this is observationally equivalent to `deploy_version`. -/
def deploy_version_nocheck (argv_rest : List String) : DeployResult :=
  let args := argv_rest
  let version := args.getD 0 "latest"
  let message := args.getD 1 ("Deploy version " ++ version)
  let cmd := ["mike", "deploy", "--push", "--update-aliases", version, "latest"]
  let cmd := cmd ++ ["-m", message]
  { version := version
    message := message
    cmd := cmd
    output := ["Deploying documentation version: " ++ version,
               "Commit message: " ++ message] }

/-- Observable outcome of one run of the standalone dispatcher: the external
calls issued, the lines printed by the dispatcher itself, and its exit code. -/
structure DispatchResult where
  calls : List RunCall
  output : List String
  exitCode : Nat
deriving Repr, DecidableEq

/-- The `__main__` dispatch: `argv` is the full `sys.argv` (script name
first), `environ` is `os.environ`.
`command = sys.argv[1] if len(sys.argv) > 1 else "serve"`; the four branches
call the operations above; `deploy_version` reads `sys.argv[1:]`, embedded
as `argv.drop 1`. The fall-through branch prints the unknown command and the
valid names and exits with status 1; recognized branches let the interpreter
exit normally (status 0). -/
def main_dispatch (argv : List String) (environ : List (String × String)) :
    DispatchResult :=
  let command := argv.getD 1 "serve"
  if command = "serve" then
    { calls := [serve], output := [], exitCode := 0 }
  else if command = "build" then
    { calls := [build], output := [], exitCode := 0 }
  else if command = "build-pdf" then
    { calls := [(build_pdf environ).fst], output := [], exitCode := 0 }
  else if command = "deploy-version" then
    let r := deploy_version (argv.drop 1)
    { calls := [{ cmd := r.cmd, env := none }], output := r.output, exitCode := 0 }
  else
    { calls := []
      output := ["Unknown command: " ++ command,
                 "Available commands: serve, build, build-pdf, deploy-version"]
      exitCode := 1 }

/-! Helper lemmas. -/

/-- Looking up the assigned key after a dict assignment yields the assigned
value. -/
theorem dictGet_dictSet_self (d : List (String × String)) (k v : String) :
    dictGet (dictSet d k v) k = some v := by
  induction d with
  | nil => simp [dictSet, dictGet]
  | cons p rest ih =>
    obtain ⟨a, b⟩ := p
    by_cases h : a = k
    · simp [dictSet, dictGet, h]
    · simp [dictSet, dictGet, h, ih]

/-- A dict assignment leaves every other key unchanged. -/
theorem dictGet_dictSet_ne (d : List (String × String)) (k v k' : String)
    (h : k' ≠ k) : dictGet (dictSet d k v) k' = dictGet d k' := by
  induction d with
  | nil => simp [dictSet, dictGet, Ne.symm h]
  | cons p rest ih =>
    obtain ⟨a, b⟩ := p
    by_cases ha : a = k
    · subst ha
      simp [dictSet, dictGet, Ne.symm h, ih]
    · simp [dictSet, dictGet, ha, ih]

/-- `deploy_version` only reads the first two positional arguments. -/
theorem deploy_version_take_two (args : List String) :
    deploy_version args = deploy_version (args.take 2) := by
  match args with
  | [] => rfl
  | [a] => rfl
  | a :: b :: t => rfl

/-- The templated default message is never the empty string. -/
theorem default_message_ne_empty (v : String) :
    ("Deploy version " ++ v) ≠ "" := by
  intro h
  have h2 := congrArg String.length h
  rw [String.length_append] at h2
  have h3 : ("Deploy version " : String).length = 15 := rfl
  have h4 : ("" : String).length = 0 := rfl
  omega

/-! Claim theorems. -/

/-- C1: the claim states that the standalone dispatcher hands
`deploy_version` only the arguments after the `deploy-version` token. The
code instead lets `deploy_version` read `sys.argv[1:]`, which still begins
with the token: with command line `deploy-version 1.0.0 "Initial release"`
the resolved version is `deploy-version` and the message is `1.0.0`, and
with `deploy-version` alone the version is `deploy-version`, not `latest`. -/
theorem C1_dispatcher_keeps_command_token :
    (main_dispatch ["poetry_scripts.py", "deploy-version", "1.0.0", "Initial release"] []).calls =
      [{ cmd := ["mike", "deploy", "--push", "--update-aliases", "deploy-version",
                 "latest", "-m", "1.0.0"], env := none }] ∧
    (main_dispatch ["poetry_scripts.py", "deploy-version"] []).output =
      ["Deploying documentation version: deploy-version",
       "Commit message: Deploy version deploy-version"] := by
  decide

/-- C2 counterexample: the `if message:` check is not dead code. With
argument list `["1.0.0", ""]` the resolved message is empty, the check
evaluates false, and removing the check changes the constructed command
vector (it would gain a trailing `-m ""`). -/
theorem C2_check_not_dead :
    (deploy_version ["1.0.0", ""]).message = "" ∧
    deploy_version ["1.0.0", ""] ≠ deploy_version_nocheck ["1.0.0", ""] := by
  decide

/-- C2 amended: for every argument list whose second positional argument,
when present, is non-empty, the resolved message is non-empty, the
constructed command vector ends with `-m` followed by the message, and
removing the check does not change the result. -/
theorem C2_check_redundant_unless_empty_message (args : List String)
    (h : args.get? 1 ≠ some "") :
    (deploy_version args).message ≠ "" ∧
    (deploy_version args).cmd =
      ["mike", "deploy", "--push", "--update-aliases",
       (deploy_version args).version, "latest",
       "-m", (deploy_version args).message] ∧
    deploy_version args = deploy_version_nocheck args := by
  match args with
  | [] =>
    refine ⟨default_message_ne_empty "latest", ?_, ?_⟩ <;>
      simp [deploy_version, deploy_version_nocheck, List.getD,
            default_message_ne_empty "latest"]
  | [v] =>
    refine ⟨default_message_ne_empty v, ?_, ?_⟩ <;>
      simp [deploy_version, deploy_version_nocheck, List.getD,
            default_message_ne_empty v]
  | v :: m :: rest =>
    have hm : m ≠ "" := by
      intro e
      exact h (by simp [e])
    refine ⟨hm, ?_, ?_⟩ <;>
      simp [deploy_version, deploy_version_nocheck, List.getD, hm]

/-- C2 witness: the amended claim at the concrete argument list
`["1.0.0", "Initial release"]`. -/
theorem C2_check_redundant_witness :
    (["1.0.0", "Initial release"] : List String).get? 1 ≠ some "" ∧
    ((deploy_version ["1.0.0", "Initial release"]).message ≠ "" ∧
     (deploy_version ["1.0.0", "Initial release"]).cmd =
       ["mike", "deploy", "--push", "--update-aliases",
        (deploy_version ["1.0.0", "Initial release"]).version, "latest",
        "-m", (deploy_version ["1.0.0", "Initial release"]).message] ∧
     deploy_version ["1.0.0", "Initial release"] =
       deploy_version_nocheck ["1.0.0", "Initial release"]) :=
  ⟨by decide, C2_check_redundant_unless_empty_message ["1.0.0", "Initial release"] (by decide)⟩

/-- C3: after `build_pdf` returns, the child environment is the parent
environment extended with `ENABLE_PDF_EXPORT` bound to `"1"` (that key reads
`"1"`, every other key reads as in the parent), while the dispatcher's own
environment is returned unchanged. -/
theorem C3_build_pdf_env_isolation (environ : List (String × String)) (k : String) :
    (build_pdf environ).snd = environ ∧
    (build_pdf environ).fst.env = some (dictSet environ "ENABLE_PDF_EXPORT" "1") ∧
    dictGet (dictSet environ "ENABLE_PDF_EXPORT" "1") "ENABLE_PDF_EXPORT" = some "1" ∧
    (k ≠ "ENABLE_PDF_EXPORT" →
      dictGet (dictSet environ "ENABLE_PDF_EXPORT" "1") k = dictGet environ k) :=
  ⟨rfl, rfl, dictGet_dictSet_self environ "ENABLE_PDF_EXPORT" "1",
   fun hk => dictGet_dictSet_ne environ "ENABLE_PDF_EXPORT" "1" k hk⟩

/-- C3 witness: the isolation property at the concrete parent environment
`[("PATH", "/usr/bin")]` and the spectator key `"PATH"`. -/
theorem C3_build_pdf_env_isolation_witness :
    (build_pdf [("PATH", "/usr/bin")]).snd = [("PATH", "/usr/bin")] ∧
    (build_pdf [("PATH", "/usr/bin")]).fst.env =
      some (dictSet [("PATH", "/usr/bin")] "ENABLE_PDF_EXPORT" "1") ∧
    dictGet (dictSet [("PATH", "/usr/bin")] "ENABLE_PDF_EXPORT" "1")
      "ENABLE_PDF_EXPORT" = some "1" ∧
    ("PATH" ≠ "ENABLE_PDF_EXPORT" →
      dictGet (dictSet [("PATH", "/usr/bin")] "ENABLE_PDF_EXPORT" "1") "PATH" =
        dictGet [("PATH", "/usr/bin")] "PATH") :=
  C3_build_pdf_env_isolation [("PATH", "/usr/bin")] "PATH"

/-- C4: for every string `s` outside the four recognized command names,
running the dispatcher with `s` as the first argument exits with status 1
and prints exactly the unknown-command line embedding `s` and the line
listing the four valid names; every recognized command exits with status 0
and never reaches the error path. -/
theorem C4_unrecognized_command (script s : String) (rest : List String)
    (environ : List (String × String))
    (h : s ∉ (["serve", "build", "build-pdf", "deploy-version"] : List String)) :
    (main_dispatch (script :: s :: rest) environ).exitCode = 1 ∧
    (main_dispatch (script :: s :: rest) environ).output =
      ["Unknown command: " ++ s,
       "Available commands: serve, build, build-pdf, deploy-version"] ∧
    (∀ c ∈ (["serve", "build", "build-pdf", "deploy-version"] : List String),
      (main_dispatch (script :: c :: rest) environ).exitCode = 0) := by
  simp only [List.mem_cons, List.not_mem_nil, or_false] at h
  push_neg at h
  obtain ⟨h1, h2, h3, h4⟩ := h
  refine ⟨?_, ?_, ?_⟩
  · simp [main_dispatch, List.getD, h1, h2, h3, h4]
  · simp [main_dispatch, List.getD, h1, h2, h3, h4]
  · intro c hc
    simp only [List.mem_cons, List.not_mem_nil, or_false] at hc
    rcases hc with rfl | rfl | rfl | rfl <;>
      simp [main_dispatch, List.getD]

/-- C4 witness: the unrecognized command `"frobnicate"` with empty tail and
environment. -/
theorem C4_unrecognized_command_witness :
    "frobnicate" ∉ (["serve", "build", "build-pdf", "deploy-version"] : List String) ∧
    ((main_dispatch ["poetry_scripts.py", "frobnicate"] []).exitCode = 1 ∧
     (main_dispatch ["poetry_scripts.py", "frobnicate"] []).output =
       ["Unknown command: " ++ "frobnicate",
        "Available commands: serve, build, build-pdf, deploy-version"] ∧
     (∀ c ∈ (["serve", "build", "build-pdf", "deploy-version"] : List String),
       (main_dispatch ["poetry_scripts.py", c] []).exitCode = 0)) :=
  ⟨by decide, C4_unrecognized_command "poetry_scripts.py" "frobnicate" [] [] (by decide)⟩

/-- C5: with version `"1.0.0"` and message `"Initial release"` as the two
positional arguments, the constructed vector is, in order: the deploy
subcommand, `--push`, `--update-aliases`, `"1.0.0"`, the literal `"latest"`,
then `-m` followed by `"Initial release"`. -/
theorem C5_explicit_args :
    (deploy_version ["1.0.0", "Initial release"]).cmd =
      ["mike", "deploy", "--push", "--update-aliases", "1.0.0", "latest",
       "-m", "Initial release"] := by
  decide

/-- C6: with no positional arguments, the resolved version is `"latest"` and
the resolved message is exactly `"Deploy version latest"`. -/
theorem C6_defaults :
    (deploy_version []).version = "latest" ∧
    (deploy_version []).message = "Deploy version latest" := by
  decide

/-- C7: for every version string `v` supplied alone, the resolved message is
`"Deploy version "` followed by `v`. -/
theorem C7_default_message (v : String) :
    (deploy_version [v]).message = "Deploy version " ++ v := rfl

/-- C8: the dispatcher run with zero command-line arguments behaves exactly
as with the explicit `"serve"` command, issuing the `mkdocs serve` call. -/
theorem C8_default_is_serve (script : String) (environ : List (String × String)) :
    main_dispatch [script] environ = main_dispatch [script, "serve"] environ ∧
    (main_dispatch [script] environ).calls =
      [{ cmd := ["mkdocs", "serve"], env := none }] := by
  constructor <;> simp [main_dispatch, List.getD, serve]

/-- C9: defaulting is on absence, not emptiness: an empty first argument
yields version `""` and (when the message is absent) the default message
`"Deploy version "` with trailing space; an empty second argument yields
message `""` and a command vector without the `-m` flag appended. -/
theorem C9_empty_string_not_defaulted (v : String) (rest : List String) :
    (deploy_version ("" :: rest)).version = "" ∧
    (deploy_version [""]).message = "Deploy version " ∧
    (deploy_version [v, ""]).message = "" ∧
    (deploy_version [v, ""]).cmd =
      ["mike", "deploy", "--push", "--update-aliases", v, "latest"] := by
  refine ⟨rfl, by decide, rfl, ?_⟩
  simp [deploy_version, List.getD]

/-- C10: `deploy_version` ignores positional arguments beyond the second:
two argument lists that agree on their first two elements (or on however
many of the first two exist) produce the same result, in particular the
same command vector and printed output. -/
theorem C10_extra_args_ignored (args1 args2 : List String)
    (h : args1.take 2 = args2.take 2) :
    deploy_version args1 = deploy_version args2 := by
  rw [deploy_version_take_two args1, deploy_version_take_two args2, h]

/-- C10 witness: `["v", "m", "extra"]` and `["v", "m"]` agree on their first
two elements and produce the same result. -/
theorem C10_extra_args_ignored_witness :
    (["v", "m", "extra"] : List String).take 2 = (["v", "m"] : List String).take 2 ∧
    deploy_version ["v", "m", "extra"] = deploy_version ["v", "m"] :=
  ⟨rfl, C10_extra_args_ignored ["v", "m", "extra"] ["v", "m"] rfl⟩
